import Mathlib

/-!
Verification development for the geb-backend WhatsApp dashboard backend.

The Python sources under backend/ are shallowly embedded below: pure helpers
become Lean functions, the in-memory collection store becomes explicit record
states threaded through the handler functions, HTTP 4xx failures become
Except-errors carrying status code and detail string, and environment effects
(gateway HTTP calls, clock readings) become explicit parameters supplied by
the caller.  Python dicts-as-records become Lean structures with the same
field names; Python string truthiness is modelled explicitly.
-/

namespace Geb

/-! ## Python string primitives

Lean's built-in String.trim / toLower / startsWith are implemented with
Substring byte indices and do not reduce well in the kernel, so the Python
string operations used by the backend are modelled directly on the
underlying character lists. -/

/-- Python str.strip(): remove leading and trailing whitespace. -/
def pyStrip (s : String) : String :=
  String.mk (((s.data.dropWhile Char.isWhitespace).reverse.dropWhile Char.isWhitespace).reverse)

/-- Python str.lower(). -/
def pyLower (s : String) : String :=
  String.mk (s.data.map Char.toLower)

/-- Python str.startswith(pre). -/
def pyStartsWith (s pre : String) : Bool :=
  pre.data.isPrefixOf s.data

/-- Python len(s). -/
def pyLen (s : String) : Nat :=
  s.data.length

/-- Python s[:n]. -/
def pyTake (n : Nat) (s : String) : String :=
  String.mk (s.data.take n)

/-- Python str.replace(c, "") for a single character: remove every occurrence. -/
def pyRemoveChar (c : Char) (s : String) : String :=
  String.mk (s.data.filter (fun x => !(x == c)))

/-- Python truthiness of an optional string field: None and "" are falsy. -/
def optStrTruthy : Option String → Bool
  | none => false
  | some s => s ≠ ""

/-- Python `s or None` on a string: the empty string collapses to None. -/
def pyOrNone (s : String) : Option String :=
  if s = "" then none else some s

/-- Python truthiness of an optional int: None and 0 are falsy. -/
def optNatTruthy : Option Nat → Bool
  | none => false
  | some n => n ≠ 0

/-! ## whatsapp_service.py -/

/-- The common cleaning step of _normalize_phone and validate_phone:
phone.strip().replace(" ", "").replace("-", "").replace("+", ""). -/
def cleanPhone (phone : String) : String :=
  pyRemoveChar '+' (pyRemoveChar '-' (pyRemoveChar ' ' (pyStrip phone)))

/-- whatsapp_service._normalize_phone: after cleaning, prefix "91" when the
cleaned string does not already start with "91" and has length 10. -/
def normalize_phone (phone : String) : String :=
  let cleaned := cleanPhone phone
  if !(pyStartsWith cleaned "91") && pyLen cleaned == 10 then "91" ++ cleaned
  else cleaned

/-- Python str.isdigit(): nonempty and every character a digit. -/
def isdigitPy (s : String) : Bool :=
  s ≠ "" && s.data.all Char.isDigit

/-- whatsapp_service.validate_phone: cleaned form is all digits and 7..15 long. -/
def validate_phone (phone : String) : Bool :=
  let cleaned := cleanPhone phone
  isdigitPy cleaned && decide (7 ≤ cleaned.data.length) && decide (cleaned.data.length ≤ 15)

/-- One entry of a "parameters" list in an outbound template payload,
a dict {"type": ..., "text": ...}. -/
structure WaParameter where
  type : String
  text : String
deriving DecidableEq, Repr, Inhabited

/-- One entry of the "components" list of an outbound template payload. The
body component of the source carries type and parameters only; the URL-button
component additionally carries sub_type and index. -/
structure WaComponent where
  type : String
  sub_type : Option String
  index : Option String
  parameters : List WaParameter
deriving DecidableEq, Repr, Inhabited

/-- The "template" object of an outbound payload. -/
structure WaTemplate where
  name : String
  language : String
  components : List WaComponent
deriving DecidableEq, Repr, Inhabited

/-- An outbound payload handed to _post. Text payloads carry text, template
payloads carry template. -/
structure WaPayload where
  messaging_product : String
  to_phone : String
  type : String
  text : Option String
  template : Option WaTemplate
deriving DecidableEq, Repr, Inhabited

/-- The components list built by send_template_with_variables: a body
component when variables is nonempty, then a URL-button component when the
button_url argument is truthy. -/
def buildTemplateComponents (vars : List String) (button_url : Option String) :
    List WaComponent :=
  let comps : List WaComponent :=
    if vars ≠ [] then
      [⟨"body", none, none, vars.map (fun v => ⟨"text", v⟩)⟩]
    else []
  if optStrTruthy button_url then
    comps ++ [⟨"button", some "url", some "0", [⟨"text", button_url.getD ""⟩]⟩]
  else comps

/-- The payload built by send_template_with_variables before it is handed to
_post (the HTTP dispatch; its outcome is environment-supplied below). -/
def send_template_with_variables_payload (to_phone template_name : String)
    (vars : List String) (language_code : String) (button_url : Option String) :
    WaPayload :=
  { messaging_product := "whatsapp"
    to_phone := normalize_phone to_phone
    type := "template"
    text := none
    template := some
      { name := template_name
        language := language_code
        components := buildTemplateComponents vars button_url } }

/-- The payload built by send_text_message. -/
def send_text_message_payload (to_phone text : String) : WaPayload :=
  { messaging_product := "whatsapp"
    to_phone := normalize_phone to_phone
    type := "text"
    text := some text
    template := none }

/-- The normalized result of _post as consumed by the handlers: success flag,
optional provider message id, optional error string. The handlers read only
these keys (plus simulated/note, which are echoed verbatim and irrelevant to
the claims). The actual outcome depends on the network and is supplied by the
environment, so handler embeddings below take it as a parameter. -/
structure GatewayResult where
  success : Bool
  message_id : Option String
  error : Option String
deriving DecidableEq, Repr, Inhabited

/-- A payload has a URL-button component iff its components list contains an
entry of type "button". -/
def hasUrlButton (p : WaPayload) : Bool :=
  match p.template with
  | none => false
  | some t => t.components.any (fun c => c.type == "button")

/-! ## C4 — phone normalization -/

/-- C4 counterexample: the input "9198765432" strips to itself, which is
exactly 10 digits, yet _normalize_phone returns it unchanged instead of
prefixing "91", because the code prefixes only when the cleaned string does
not already start with "91". -/
theorem C4_counterexample :
    isdigitPy (cleanPhone "9198765432") = true ∧
    pyLen (cleanPhone "9198765432") = 10 ∧
    normalize_phone "9198765432" ≠ "91" ++ cleanPhone "9198765432" := by
  refine ⟨by decide, by decide, by decide⟩

/-- C4 (amended): after stripping whitespace and removing spaces, dashes and
plus signs, the result is prefixed with "91" exactly when it has length 10
and does not already start with "91" (whether or not it is all digits);
otherwise it is returned unchanged. -/
theorem C4_normalize_phone_spec (phone : String) :
    (pyStartsWith (cleanPhone phone) "91" = false → pyLen (cleanPhone phone) = 10 →
      normalize_phone phone = "91" ++ cleanPhone phone) ∧
    (pyStartsWith (cleanPhone phone) "91" = true ∨ pyLen (cleanPhone phone) ≠ 10 →
      normalize_phone phone = cleanPhone phone) := by
  constructor
  · intro h1 h2
    simp [normalize_phone, h1, h2]
  · intro h
    rcases h with h | h
    · simp [normalize_phone, h]
    · simp [normalize_phone, h]

/-- C4 witness: a plain 10-digit number not starting with 91 is prefixed. -/
theorem C4_witness :
    normalize_phone "+98765 43210" = "91" ++ cleanPhone "+98765 43210" :=
  (C4_normalize_phone_spec "+98765 43210").1 (by decide) (by decide)

/-! ## Shared store machinery -/

/-- An HTTP error response: status code and detail string
(raise HTTPException(status_code, detail)). -/
structure HttpErr where
  status : Nat
  detail : String
deriving DecidableEq, Repr, Inhabited

/-- Decidable equality for Except results, so that concrete handler outcomes
can be checked by evaluation. -/
instance {ε α : Type} [DecidableEq ε] [DecidableEq α] : DecidableEq (Except ε α) :=
  fun x y =>
    match x, y with
    | .ok a, .ok b =>
      if h : a = b then .isTrue (by rw [h]) else .isFalse (by intro hc; cases hc; exact h rfl)
    | .error a, .error b =>
      if h : a = b then .isTrue (by rw [h]) else .isFalse (by intro hc; cases hc; exact h rfl)
    | .ok _, .error _ => .isFalse (by intro hc; cases hc)
    | .error _, .ok _ => .isFalse (by intro hc; cases hc)

/-- Mutate the first element of a list satisfying p in place, as Python's
find-then-mutate idiom does (next(...) followed by field assignment). -/
def updateFirst {α : Type} (p : α → Bool) (f : α → α) : List α → List α
  | [] => []
  | a :: l => if p a then f a :: l else a :: updateFirst p f l

/-- If f preserves an observation g, updateFirst preserves the list of
observations. -/
theorem updateFirst_map {α β : Type} (p : α → Bool) (f : α → α) (g : α → β)
    (hf : ∀ a, g (f a) = g a) (l : List α) :
    (updateFirst p f l).map g = l.map g := by
  induction l with
  | nil => rfl
  | cons a l ih =>
    by_cases h : p a
    · simp [updateFirst, h, hf]
    · simp [updateFirst, h, ih]

/-- If no element satisfies p, updateFirst changes nothing. -/
theorem updateFirst_of_no_match {α : Type} (p : α → Bool) (f : α → α) (l : List α)
    (h : ∀ a ∈ l, p a = false) : updateFirst p f l = l := by
  induction l with
  | nil => rfl
  | cons a l ih =>
    have ha := h a (by simp)
    simp [updateFirst, ha]
    exact ih (fun x hx => h x (by simp [hx]))

/-- Every element of updateFirst p f l is an old element or the image of one. -/
theorem mem_updateFirst {α : Type} (p : α → Bool) (f : α → α) (l : List α) (x : α)
    (h : x ∈ updateFirst p f l) : x ∈ l ∨ ∃ a ∈ l, x = f a := by
  induction l with
  | nil => simp [updateFirst] at h
  | cons a l ih =>
    by_cases ha : p a
    · simp [updateFirst, ha] at h
      rcases h with h | h
      · exact Or.inr ⟨a, by simp, h⟩
      · exact Or.inl (by simp [h])
    · simp [updateFirst, ha] at h
      rcases h with h | h
      · exact Or.inl (by simp [h])
      · rcases ih h with h2 | ⟨b, hb, hx⟩
        · exact Or.inl (by simp [h2])
        · exact Or.inr ⟨b, by simp [hb], hx⟩

/-! ## config.py

Configuration is loaded from environment variables with the defaults below;
the embedding keeps it as an explicit record parameter. -/

structure Config where
  SECRET_KEY : String
  JWT_EXPIRY_HOURS : Nat
  WHATSAPP_VERIFY_TOKEN : String
  ADMIN_USERNAME : String
  ADMIN_PASSWORD : String
  ADMIN_NAME : String
  ADMIN_EMAIL : String
deriving DecidableEq, Repr, Inhabited

/-- The default configuration values from config.py. -/
def defaultConfig : Config :=
  { SECRET_KEY := "geb-secret-key-change-in-production"
    JWT_EXPIRY_HOURS := 8
    WHATSAPP_VERIFY_TOKEN := "geb_verify_token"
    ADMIN_USERNAME := "admin"
    ADMIN_PASSWORD := "admin123"
    ADMIN_NAME := "GEB Admin"
    ADMIN_EMAIL := "admin@geb.com" }

/-! ## Users: store.py seeding and routes/users.py -/

/-- Modelled from the spec: password hashing is done by the external werkzeug
library (generate_password_hash / check_password_hash), which is not part of
this repository. Only the property "a stored hash matches exactly the
password it was generated from" is relevant to any claim, so it is modelled
as an injective tagging. -/
def generate_password_hash (password : String) : String :=
  "pbkdf2-sha256$" ++ password

/-- Modelled from the spec: werkzeug check_password_hash, see
generate_password_hash. -/
def check_password_hash (h password : String) : Bool :=
  h == generate_password_hash password

/-- A user record, as stored in store.users. is_active is an int 0/1 in the
source and only ever used for truthiness, so it is a Bool here. -/
structure User where
  id : Nat
  name : String
  email : String
  username : String
  password_hash : String
  role : String
  is_active : Bool
  created_at : String
  last_login : Option String
deriving DecidableEq, Repr, Inhabited

/-- The users collection plus its auto-increment counter. -/
structure UserState where
  users : List User
  next_user_id : Nat
deriving DecidableEq, Repr, Inhabited

/-- store._seed_admin on an empty store: one active admin from configuration. -/
def seedUserState (cfg : Config) (now : String) : UserState :=
  { users := [
      { id := 1
        name := cfg.ADMIN_NAME
        email := cfg.ADMIN_EMAIL
        username := cfg.ADMIN_USERNAME
        password_hash := generate_password_hash cfg.ADMIN_PASSWORD
        role := "admin"
        is_active := true
        created_at := now
        last_login := none } ]
    next_user_id := 2 }

/-- routes/users.py MAX_USERS. -/
def MAX_USERS : Nat := 6

/-- Number of users whose is_active flag is truthy. -/
def activeCount (l : List User) : Nat :=
  l.countP (fun u => u.is_active)

/-- Body of POST /api/users/. -/
structure CreateUserRequest where
  name : String
  email : String
  username : String
  password : String
  role : String
deriving DecidableEq, Repr, Inhabited

/-- Body of PUT /api/users/{id}; absent fields are None. -/
structure UpdateUserRequest where
  name : Option String
  email : Option String
  role : Option String
  is_active : Option Bool
deriving DecidableEq, Repr, Inhabited

/-- routes/users.py create_user (admin-gated by dependency; the acting admin
identity only reaches the activity log, which no claim concerns). -/
def create_user (st : UserState) (body : CreateUserRequest) (now : String) :
    Except HttpErr UserState :=
  if pyStrip body.name = "" ∨ pyLower (pyStrip body.email) = "" ∨
      pyLower (pyStrip body.username) = "" ∨ body.password = "" then
    .error ⟨400, "Name, email, username, and password are required"⟩
  else if pyLen body.password < 6 then
    .error ⟨400, "Password must be at least 6 characters"⟩
  else if body.role ≠ "admin" ∧ body.role ≠ "operator" ∧ body.role ≠ "viewer" then
    .error ⟨400, "Role must be admin, operator, or viewer"⟩
  else if MAX_USERS ≤ activeCount st.users then
    .error ⟨400, "Maximum 6 users allowed per the license"⟩
  else if st.users.any (fun u => u.username == pyLower (pyStrip body.username)) then
    .error ⟨409, "Username already exists"⟩
  else if st.users.any (fun u => u.email == pyLower (pyStrip body.email)) then
    .error ⟨409, "Email already exists"⟩
  else
    .ok { users := st.users ++ [
            { id := st.next_user_id
              name := pyStrip body.name
              email := pyLower (pyStrip body.email)
              username := pyLower (pyStrip body.username)
              password_hash := generate_password_hash body.password
              role := body.role
              is_active := true
              created_at := now
              last_login := none } ]
          next_user_id := st.next_user_id + 1 }

/-- The in-place field assignments of update_user on the found user record.
Note: no uniqueness check, no normalization, no cap check, and the username
cannot be changed. -/
def applyUserUpdate (body : UpdateUserRequest) (u : User) : User :=
  let u1 := match body.name with
    | some v => { u with name := v }
    | none => u
  let u2 := match body.email with
    | some v => { u1 with email := v }
    | none => u1
  let u3 := match body.role with
    | some v => { u2 with role := v }
    | none => u2
  match body.is_active with
  | some v => { u3 with is_active := v }
  | none => u3

/-- routes/users.py update_user: find the first user with the id (404 when
absent), then assign each provided field in place. -/
def update_user (st : UserState) (user_id : Nat) (body : UpdateUserRequest) :
    Except HttpErr UserState :=
  if st.users.any (fun u => u.id == user_id) then
    .ok { st with
          users := updateFirst (fun u => u.id == user_id) (applyUserUpdate body) st.users }
  else
    .error ⟨404, "User not found"⟩

/-- routes/users.py delete_user: self-delete forbidden, otherwise soft
deactivation of the first user with the id. -/
def delete_user (st : UserState) (actor_id user_id : Nat) :
    Except HttpErr UserState :=
  if user_id == actor_id then
    .error ⟨400, "Cannot delete your own account"⟩
  else if st.users.any (fun u => u.id == user_id) then
    .ok { st with
          users := updateFirst (fun u => u.id == user_id)
            (fun u => { u with is_active := false }) st.users }
  else
    .error ⟨404, "User not found"⟩

/-- Body of POST /api/auth/change-password. -/
structure ChangePasswordRequest where
  current_password : String
  new_password : String
deriving DecidableEq, Repr, Inhabited

/-- routes/auth.py change_password: validate, find the actor's record, check
the current password against the stored hash, store the new hash. -/
def change_password (st : UserState) (actor_id : Nat) (body : ChangePasswordRequest) :
    Except HttpErr UserState :=
  if body.current_password = "" ∨ body.new_password = "" then
    .error ⟨400, "Both current and new password required"⟩
  else if pyLen body.new_password < 6 then
    .error ⟨400, "New password must be at least 6 characters"⟩
  else
    match st.users.find? (fun u => u.id == actor_id) with
    | none => .error ⟨400, "Current password is incorrect"⟩
    | some u =>
      if check_password_hash u.password_hash body.current_password then
        .ok { st with
              users := updateFirst (fun x => x.id == actor_id)
                (fun x => { x with password_hash := generate_password_hash body.new_password })
                st.users }
      else
        .error ⟨400, "Current password is incorrect"⟩

/-- One user-collection operation together with its environment inputs. -/
inductive UserOp where
  | create (body : CreateUserRequest) (now : String)
  | update (user_id : Nat) (body : UpdateUserRequest)
  | delete (actor_id user_id : Nat)
  | changePw (actor_id : Nat) (body : ChangePasswordRequest)
deriving DecidableEq, Repr

/-- Apply a user operation; a 4xx rejection leaves the store unchanged. -/
def applyUserOp (st : UserState) (op : UserOp) : UserState :=
  match op with
  | .create body now =>
    match create_user st body now with
    | .ok st2 => st2
    | .error _ => st
  | .update uid body =>
    match update_user st uid body with
    | .ok st2 => st2
    | .error _ => st
  | .delete a uid =>
    match delete_user st a uid with
    | .ok st2 => st2
    | .error _ => st
  | .changePw a body =>
    match change_password st a body with
    | .ok st2 => st2
    | .error _ => st

/-- Run a sequence of user operations. -/
def runUserOps (st : UserState) (ops : List UserOp) : UserState :=
  ops.foldl applyUserOp st

/-- States of the user collection reachable from the seeded store. -/
inductive UserReachable (cfg : Config) : UserState → Prop where
  | seed (now : String) : UserReachable cfg (seedUserState cfg now)
  | step (st : UserState) (op : UserOp) :
      UserReachable cfg st → UserReachable cfg (applyUserOp st op)

/-- Any state computed by running operations from the seed is reachable. -/
theorem userReachable_runOps (cfg : Config) (now : String) (ops : List UserOp) :
    UserReachable cfg (runUserOps (seedUserState cfg now) ops) := by
  have h : ∀ st, UserReachable cfg st → UserReachable cfg (runUserOps st ops) := by
    induction ops with
    | nil => intro st h; exact h
    | cons op ops ih =>
      intro st h
      exact ih (applyUserOp st op) (UserReachable.step st op h)
  exact h (seedUserState cfg now) (UserReachable.seed now)

/-! ## C2 — active-user cap -/

/-- A trace that drives the store past the 6-active-user cap: five creations
(6 active), one deactivation (5 active), one more creation (6 active), then a
reactivation through update_user, which performs no cap check. -/
def c2ops : List UserOp :=
  [ .create ⟨"User Two", "u2@geb.com", "u2", "secret1", "operator"⟩ "t1",
    .create ⟨"User Three", "u3@geb.com", "u3", "secret1", "operator"⟩ "t2",
    .create ⟨"User Four", "u4@geb.com", "u4", "secret1", "operator"⟩ "t3",
    .create ⟨"User Five", "u5@geb.com", "u5", "secret1", "operator"⟩ "t4",
    .create ⟨"User Six", "u6@geb.com", "u6", "secret1", "operator"⟩ "t5",
    .delete 1 6,
    .create ⟨"User Seven", "u7@geb.com", "u7", "secret1", "operator"⟩ "t6",
    .update 6 ⟨none, none, none, some true⟩ ]

/-- C2 counterexample: a state with 7 simultaneously active users is
reachable from the seeded store, because update_user can set is_active
without re-checking MAX_USERS; the claimed invariant fails. -/
theorem C2_counterexample :
    ∃ st, UserReachable defaultConfig st ∧ MAX_USERS < activeCount st.users :=
  ⟨runUserOps (seedUserState defaultConfig "t0") c2ops,
   userReachable_runOps defaultConfig "t0" c2ops, by decide⟩

/-- C2 (amended): create_user called with at least 6 users already active
fails with status 400 and leaves the user collection unchanged (update_user,
however, can reactivate a user without a cap check, so the global at-most-6
invariant does not hold over all three operations). -/
theorem C2_create_user_cap (st : UserState) (body : CreateUserRequest) (now : String)
    (h : 6 ≤ activeCount st.users) :
    (∃ d, create_user st body now = .error ⟨400, d⟩) ∧
    applyUserOp st (.create body now) = st := by
  have herr : ∃ d, create_user st body now = .error ⟨400, d⟩ := by
    unfold create_user
    split
    · exact ⟨_, rfl⟩
    · split
      · exact ⟨_, rfl⟩
      · split
        · exact ⟨_, rfl⟩
        · split
          · exact ⟨_, rfl⟩
          · rename_i h4
            exact absurd (show MAX_USERS ≤ activeCount st.users by
              simpa [MAX_USERS] using h) h4
  obtain ⟨d, hd⟩ := herr
  exact ⟨⟨d, hd⟩, by simp [applyUserOp, hd]⟩

/-- A reachable state with exactly 6 active users, for the C2 witness. -/
def c2state6 : UserState :=
  runUserOps (seedUserState defaultConfig "t0") (c2ops.take 5)

/-- A seventh-user creation request, for the C2 witness. -/
def c2body7 : CreateUserRequest :=
  ⟨"User Seven", "u7@geb.com", "u7", "secret1", "operator"⟩

/-- C2 witness: at the concrete reachable state with 6 active users, the
seventh creation is rejected with a 400 and the store is unchanged. -/
theorem C2_witness :
    (∃ d, create_user c2state6 c2body7 "t6" = .error ⟨400, d⟩) ∧
    applyUserOp c2state6 (.create c2body7 "t6") = c2state6 :=
  C2_create_user_cap c2state6 c2body7 "t6" (by decide)

/-! ## C5 — username/email uniqueness -/

/-- When create_user succeeds, it appends exactly one user whose (lowercased,
stripped) username was not present before. -/
theorem create_user_ok_users (st : UserState) (body : CreateUserRequest) (now : String)
    (st2 : UserState) (h : create_user st body now = .ok st2) :
    ∃ u, st2.users = st.users ++ [u] ∧
      u.username = pyLower (pyStrip body.username) ∧
      st.users.any (fun x => x.username == pyLower (pyStrip body.username)) = false := by
  unfold create_user at h
  split at h
  · simp at h
  · split at h
    · simp at h
    · split at h
      · simp at h
      · split at h
        · simp at h
        · split at h
          · simp at h
          · split at h
            · simp at h
            · rename_i h5 h6
              cases h
              exact ⟨_, rfl, rfl, by simpa using h5⟩

/-- update_user never changes any username. -/
theorem applyUserUpdate_username (body : UpdateUserRequest) (u : User) :
    (applyUserUpdate body u).username = u.username := by
  obtain ⟨n, e, r, a⟩ := body
  unfold applyUserUpdate
  cases n <;> cases e <;> cases r <;> cases a <;> rfl

/-- Applying any user operation either preserves the username column or
appends one fresh username. -/
theorem usernames_applyUserOp (st : UserState) (op : UserOp)
    (h : (st.users.map (fun u => u.username)).Nodup) :
    ((applyUserOp st op).users.map (fun u => u.username)).Nodup := by
  cases op with
  | create body now =>
    cases hc : create_user st body now with
    | error e => simpa [applyUserOp, hc] using h
    | ok st2 =>
      obtain ⟨u, husers, huname, hany⟩ := create_user_ok_users st body now st2 hc
      have hnotmem : u.username ∉ st.users.map (fun x => x.username) := by
        rw [huname]
        intro hmem
        simp only [List.mem_map] at hmem
        obtain ⟨x, hx, hxe⟩ := hmem
        rw [List.any_eq_false] at hany
        exact hany x hx (by simp [hxe])
      have : ((st.users ++ [u]).map (fun x => x.username)).Nodup := by
        rw [List.map_append]
        exact List.Nodup.append h (by simp) (by
          intro x hx hmem
          simp at hmem
          exact hnotmem (hmem ▸ hx))
      simpa [applyUserOp, hc, husers] using this
  | update uid body =>
    cases hc : update_user st uid body with
    | error e => simpa [applyUserOp, hc] using h
    | ok st2 =>
      have heq : st2.users.map (fun u => u.username) = st.users.map (fun u => u.username) := by
        unfold update_user at hc
        split at hc
        · cases hc
          exact updateFirst_map _ _ _ (applyUserUpdate_username body) st.users
        · simp at hc
      simpa [applyUserOp, hc, heq] using h
  | delete a uid =>
    cases hc : delete_user st a uid with
    | error e => simpa [applyUserOp, hc] using h
    | ok st2 =>
      have heq : st2.users.map (fun u => u.username) = st.users.map (fun u => u.username) := by
        unfold delete_user at hc
        split at hc
        · simp at hc
        · split at hc
          · cases hc
            exact updateFirst_map (fun u => u.id == uid)
              (fun u => { u with is_active := false }) (fun u => u.username)
              (fun x => rfl) st.users
          · simp at hc
      simpa [applyUserOp, hc, heq] using h
  | changePw a body =>
    cases hc : change_password st a body with
    | error e => simpa [applyUserOp, hc] using h
    | ok st2 =>
      have heq : st2.users.map (fun u => u.username) = st.users.map (fun u => u.username) := by
        unfold change_password at hc
        split at hc
        · simp at hc
        · split at hc
          · simp at hc
          · split at hc
            · simp at hc
            · rename_i hfind
              split at hc
              · cases hc
                exact updateFirst_map (fun x => x.id == a)
                  (fun x => { x with password_hash := generate_password_hash body.new_password })
                  (fun u => u.username) (fun x => rfl) st.users
              · simp at hc
      simpa [applyUserOp, hc, heq] using h

/-- C5 (amended): in every state reachable from the seeded store via
create_user, update_user, delete_user and change_password, no two user
records share a username (update_user cannot change usernames and create_user
checks all users ever created); email uniqueness, by contrast, is enforced
only by create_user and is broken by update_user, see the counterexample. -/
theorem C5_usernames_unique (cfg : Config) (st : UserState)
    (h : UserReachable cfg st) :
    (st.users.map (fun u => u.username)).Nodup := by
  induction h with
  | seed now => simp [seedUserState]
  | step st2 op hr ih => exact usernames_applyUserOp st2 op ih

/-- A trace producing two users with the same email: update_user assigns the
email field with no uniqueness check. -/
def c5ops : List UserOp :=
  [ .create ⟨"User Two", "u2@geb.com", "u2", "secret1", "operator"⟩ "t1",
    .update 2 ⟨none, some "admin@geb.com", none, none⟩ ]

/-- C5 counterexample: a reachable state in which two user records share an
email address, refuting the all-operations email-uniqueness invariant. -/
theorem C5_counterexample :
    ∃ st, UserReachable defaultConfig st ∧
      ¬ (st.users.map (fun u => u.email)).Nodup :=
  ⟨runUserOps (seedUserState defaultConfig "t0") c5ops,
   userReachable_runOps defaultConfig "t0" c5ops, by decide⟩

/-- C5 witness: the username column of a concrete reachable state (the one of
the email counterexample trace) is duplicate-free. -/
theorem C5_witness :
    ((runUserOps (seedUserState defaultConfig "t0") c5ops).users.map
      (fun u => u.username)).Nodup :=
  C5_usernames_unique defaultConfig _ (userReachable_runOps defaultConfig "t0" c5ops)

/-! ## Credential and token service: routes/auth.py

The token helpers wrap the external PyJWT library. Modelled from the spec:
the token is a signed record of user id, username, role, issued-at and
expiry; validation recomputes the signature from the shared secret (reject
with 401 "Invalid token" on mismatch), then rejects elapsed expiry with 401
"Token expired...". The HMAC-SHA256 of the library is modelled as a concrete
recomputable signature function over the secret and the claims. -/

/-- The claims carried by a token. -/
structure TokenPayload where
  user_id : Nat
  username : String
  role : String
  exp : Nat
  iat : Nat
deriving DecidableEq, Repr, Inhabited

/-- A signed token: payload plus signature over payload and secret. -/
structure Token where
  payload : TokenPayload
  sig : Nat
deriving DecidableEq, Repr, Inhabited

/-- A simple deterministic stand-in for the library's HMAC signature; only
recomputability with the same secret matters to the claims. -/
def jwtSign (secret : String) (p : TokenPayload) : Nat :=
  (secret.data.foldl (fun h c => h * 31 + c.toNat) 7) * 1000003 +
    (p.username.data.foldl (fun h c => h * 31 + c.toNat) (p.user_id + 11)) * 65599 +
    (p.role.data.foldl (fun h c => h * 31 + c.toNat) 13) * 257 +
    p.exp * 31 + p.iat

/-- routes/auth.py generate_token: claims plus expiry now + JWT_EXPIRY_HOURS,
signed with the configured secret. Time is in seconds since an arbitrary
epoch. -/
def generate_token (cfg : Config) (now : Nat) (user_id : Nat) (username role : String) :
    Token :=
  { payload :=
      { user_id := user_id
        username := username
        role := role
        exp := now + cfg.JWT_EXPIRY_HOURS * 3600
        iat := now }
    sig := jwtSign cfg.SECRET_KEY
      { user_id := user_id
        username := username
        role := role
        exp := now + cfg.JWT_EXPIRY_HOURS * 3600
        iat := now } }

/-- The identity yielded by a validated token. -/
structure AuthClaims where
  user_id : Nat
  username : String
  role : String
deriving DecidableEq, Repr, Inhabited

/-- routes/auth.py _decode_token (the core of get_current_user once a bearer
token has been extracted from header or cookie): reject a bad signature, then
an elapsed expiry, else yield the embedded identity claims. -/
def decode_token (cfg : Config) (now : Nat) (t : Token) : Except HttpErr AuthClaims :=
  if t.sig ≠ jwtSign cfg.SECRET_KEY t.payload then
    .error ⟨401, "Invalid token"⟩
  else if t.payload.exp < now then
    .error ⟨401, "Token expired. Please log in again."⟩
  else
    .ok ⟨t.payload.user_id, t.payload.username, t.payload.role⟩

/-- routes/auth.py login: find the first active user with the stripped
username, check the password hash, stamp last_login, and issue a token. -/
def login (cfg : Config) (st : UserState) (username password : String)
    (now : Nat) (nowIso : String) : Except HttpErr (UserState × Token × User) :=
  if pyStrip username = "" ∨ password = "" then
    .error ⟨400, "Username and password required"⟩
  else
    match st.users.find? (fun u => u.username == pyStrip username && u.is_active) with
    | none => .error ⟨401, "Invalid credentials"⟩
    | some u =>
      if check_password_hash u.password_hash password then
        .ok ({ st with
               users := updateFirst (fun x => x.id == u.id)
                 (fun x => { x with last_login := some nowIso }) st.users },
             generate_token cfg now u.id u.username u.role, u)
      else
        .error ⟨401, "Invalid credentials"⟩

/-! ## C8 — token round-trip -/

/-- C8: decoding a token produced by generate_token with the same secret at
any time strictly before its expiry succeeds and returns exactly the same
user id, username and role; consequently a successful login issues a token
that decodes back (before expiry) to the identity of the logged-in user. -/
theorem C8_token_roundtrip (cfg : Config) (now t2 uid : Nat) (uname role : String)
    (h : t2 < now + cfg.JWT_EXPIRY_HOURS * 3600) :
    decode_token cfg t2 (generate_token cfg now uid uname role) = .ok ⟨uid, uname, role⟩ ∧
    (∀ st username password nowIso st2 tok u,
      login cfg st username password now nowIso = .ok (st2, tok, u) →
      ∀ t3, t3 < tok.payload.exp →
        decode_token cfg t3 tok = .ok ⟨u.id, u.username, u.role⟩) := by
  have hdec : ∀ uid2 (uname2 role2 : String) (t3 : Nat),
      t3 < now + cfg.JWT_EXPIRY_HOURS * 3600 →
      decode_token cfg t3 (generate_token cfg now uid2 uname2 role2) =
        .ok ⟨uid2, uname2, role2⟩ := by
    intro uid2 uname2 role2 t3 h3
    have hnotexp : ¬ (now + cfg.JWT_EXPIRY_HOURS * 3600 < t3) := by omega
    unfold decode_token generate_token
    simp [hnotexp]
  constructor
  · exact hdec uid uname role t2 h
  · intro st username password nowIso st2 tok u hlogin t3 h3
    unfold login at hlogin
    split at hlogin
    · cases hlogin
    · cases hfind : st.users.find? (fun x => x.username == pyStrip username && x.is_active) with
      | none =>
        rw [hfind] at hlogin
        cases hlogin
      | some u2 =>
        rw [hfind] at hlogin
        dsimp only at hlogin
        split at hlogin
        · cases hlogin
          exact hdec _ _ _ t3 (by simpa [generate_token] using h3)
        · cases hlogin

/-- C8 witness: at the default configuration, logging in as the seeded admin
succeeds and the issued token decodes back to the admin identity before
expiry. -/
theorem C8_witness :
    decode_token defaultConfig 100
      (generate_token defaultConfig 0 1 "admin" "admin") = .ok ⟨1, "admin", "admin"⟩ :=
  (C8_token_roundtrip defaultConfig 0 100 1 "admin" "admin" (by decide)).1

/-! ## Templates: store.py seeding and routes/templates.py -/

/-- A template record as stored in store.templates. -/
structure Template where
  id : Nat
  name : String
  category : String
  language : String
  body : String
  header : Option String
  footer : Option String
  button_text : Option String
  button_url : Option String
  status : String
  created_by : Nat
  created_at : String
deriving DecidableEq, Repr, Inhabited

/-- store._seed_templates: the four sample templates, ids 1..4. -/
def seedTemplates (now : String) : List Template :=
  [ { id := 1, name := "service_update", category := "UTILITY", language := "en"
      body := "Important update regarding your service request {{1}}: {{2}}"
      header := some "GEB Service Update", footer := some "Thank you for choosing GEB"
      button_text := none, button_url := none, status := "approved"
      created_by := 1, created_at := now },
    { id := 2, name := "group_invite", category := "UTILITY", language := "en"
      body := "Hi {{1}}, you are invited to join the GEB group. Click below to join."
      header := some "GEB Group Invitation", footer := none
      button_text := some "Join Group"
      button_url := some "https://chat.whatsapp.com/example", status := "approved"
      created_by := 1, created_at := now },
    { id := 3, name := "payment_reminder", category := "UTILITY", language := "en"
      body := "Dear {{1}}, your payment of Rs.{{2}} is due on {{3}}. Please pay to avoid interruption."
      header := some "Payment Reminder", footer := some "GEB Billing"
      button_text := none, button_url := none, status := "approved"
      created_by := 1, created_at := now },
    { id := 4, name := "welcome_message", category := "MARKETING", language := "en"
      body := "Welcome to GEB, {{1}}! We are excited to have you on board. Your account is now active."
      header := some "Welcome to GEB", footer := none
      button_text := none, button_url := none, status := "approved"
      created_by := 1, created_at := now } ]

/-- The templates collection plus its auto-increment counter. -/
structure TemplateState where
  templates : List Template
  next_template_id : Nat
deriving DecidableEq, Repr, Inhabited

/-- The seeded template store. -/
def seedTemplateState (now : String) : TemplateState :=
  { templates := seedTemplates now, next_template_id := 5 }

/-- Body of PUT /api/templates/{id}; absent fields are None. -/
structure UpdateTemplateRequest where
  body : Option String
  header : Option String
  footer : Option String
  button_text : Option String
  button_url : Option String
  status : Option String
deriving DecidableEq, Repr, Inhabited

/-- The in-place field assignments of update_template on the found template:
each provided optional field is stored through `or None` (empty string
becomes None); a provided status is stored verbatim. -/
def applyTemplateUpdate (b : UpdateTemplateRequest) (t : Template) : Template :=
  let t1 := match b.body with
    | some v => { t with body := v }
    | none => t
  let t2 := match b.header with
    | some v => { t1 with header := pyOrNone v }
    | none => t1
  let t3 := match b.footer with
    | some v => { t2 with footer := pyOrNone v }
    | none => t2
  let t4 := match b.button_text with
    | some v => { t3 with button_text := pyOrNone v }
    | none => t3
  let t5 := match b.button_url with
    | some v => { t4 with button_url := pyOrNone v }
    | none => t4
  match b.status with
  | some v => { t5 with status := v }
  | none => t5

/-- routes/templates.py update_template. Its dependency is get_current_user,
so any authenticated role reaches it; the actor role is taken as a parameter
to record that it is never inspected. -/
def update_template_route (actor_role : String) (st : TemplateState)
    (template_id : Nat) (b : UpdateTemplateRequest) : Except HttpErr TemplateState :=
  if st.templates.any (fun t => t.id == template_id) then
    .ok { st with
          templates := updateFirst (fun t => t.id == template_id)
            (applyTemplateUpdate b) st.templates }
  else
    .error ⟨404, "Template not found"⟩

/-- routes/templates.py approve_template, behind the get_admin_user
dependency: 403 unless the token role is admin, then set status "approved"
on the first template with the id. -/
def approve_template_route (actor_role : String) (st : TemplateState)
    (template_id : Nat) : Except HttpErr TemplateState :=
  if actor_role ≠ "admin" then
    .error ⟨403, "Admin access required"⟩
  else if st.templates.any (fun t => t.id == template_id) then
    .ok { st with
          templates := updateFirst (fun t => t.id == template_id)
            (fun t => { t with status := "approved" }) st.templates }
  else
    .error ⟨404, "Template not found"⟩

/-- routes/templates.py delete_template, behind the get_admin_user
dependency: 403 unless the token role is admin, then hard-remove the first
template with the id. -/
def delete_template_route (actor_role : String) (st : TemplateState)
    (template_id : Nat) : Except HttpErr TemplateState :=
  if actor_role ≠ "admin" then
    .error ⟨403, "Admin access required"⟩
  else if st.templates.any (fun t => t.id == template_id) then
    .ok { st with templates := st.templates.eraseP (fun t => t.id == template_id) }
  else
    .error ⟨404, "Template not found"⟩

/-! ## C3 — approval status mutable only by admin -/

/-- The status-field update request used in the C3 counterexample. -/
def c3body : UpdateTemplateRequest :=
  ⟨none, none, none, none, none, some "pending"⟩

/-- C3 counterexample: PUT /api/templates/1 invoked with a non-admin token
role ("operator") is not rejected and flips the seeded template's approval
status from "approved" to "pending", because update_template accepts any
authenticated user and writes the provided status verbatim. -/
theorem C3_counterexample :
    (seedTemplateState "t0").templates.map (fun t => (t.id, t.status)) =
      [(1, "approved"), (2, "approved"), (3, "approved"), (4, "approved")] ∧
    (update_template_route "operator" (seedTemplateState "t0") 1 c3body).map
        (fun st => st.templates.map (fun t => (t.id, t.status))) =
      .ok [(1, "pending"), (2, "approved"), (3, "approved"), (4, "approved")] := by
  constructor
  · decide
  · decide

/-- update_template never changes a template's id. -/
theorem applyTemplateUpdate_id (b : UpdateTemplateRequest) (t : Template) :
    (applyTemplateUpdate b t).id = t.id := by
  obtain ⟨b1, b2, b3, b4, b5, b6⟩ := b
  unfold applyTemplateUpdate
  cases b1 <;> cases b2 <;> cases b3 <;> cases b4 <;> cases b5 <;> cases b6 <;> rfl

/-- When no status field is provided, update_template preserves every
template's status. -/
theorem applyTemplateUpdate_status (b : UpdateTemplateRequest) (t : Template)
    (hb : b.status = none) :
    (applyTemplateUpdate b t).status = t.status := by
  obtain ⟨b1, b2, b3, b4, b5, b6⟩ := b
  cases hb
  unfold applyTemplateUpdate
  cases b1 <;> cases b2 <;> cases b3 <;> cases b4 <;> cases b5 <;> rfl

/-- C3 (amended): the dedicated approval and deletion endpoints are
admin-only — any non-admin token role is rejected with 403 — and
update_template without a status field preserves every template's approval
status; but update_template itself is only authentication-gated and writes a
provided status verbatim for any role, see the counterexample. -/
theorem C3_admin_gate (actor_role : String) (st : TemplateState) (template_id : Nat)
    (h : actor_role ≠ "admin") :
    approve_template_route actor_role st template_id = .error ⟨403, "Admin access required"⟩ ∧
    delete_template_route actor_role st template_id = .error ⟨403, "Admin access required"⟩ ∧
    (∀ b st2, b.status = none →
      update_template_route actor_role st template_id b = .ok st2 →
      st2.templates.map (fun t => (t.id, t.status)) =
        st.templates.map (fun t => (t.id, t.status))) := by
  refine ⟨by simp [approve_template_route, h], by simp [delete_template_route, h], ?_⟩
  intro b st2 hb hup
  unfold update_template_route at hup
  split at hup
  · cases hup
    exact updateFirst_map (fun t => t.id == template_id) (applyTemplateUpdate b)
      (fun t => (t.id, t.status))
      (fun t => by rw [Prod.mk.injEq]
                   exact ⟨applyTemplateUpdate_id b t, applyTemplateUpdate_status b t hb⟩)
      st.templates
  · cases hup

/-- C3 witness: with a viewer token, the approve endpoint on the seeded store
is rejected with 403. -/
theorem C3_witness :
    approve_template_route "viewer" (seedTemplateState "t0") 1 =
      .error ⟨403, "Admin access required"⟩ :=
  (C3_admin_gate "viewer" (seedTemplateState "t0") 1 (by decide)).1

/-! ## Messages: routes/messages.py -/

/-- A message log record as stored in store.message_logs. -/
structure MessageLog where
  id : Nat
  message_id : Option String
  recipient_phone : String
  recipient_name : Option String
  message_type : String
  template_id : Option Nat
  template_name : Option String
  body_preview : String
  status : String
  error_message : Option String
  sent_by : Nat
  sent_at : String
  delivered_at : Option String
  read_at : Option String
deriving DecidableEq, Repr, Inhabited

/-- A campaign record as stored in store.campaigns. -/
structure Campaign where
  id : Nat
  name : String
  template_id : Nat
  template_name : String
  total_recipients : Nat
  sent_count : Nat
  delivered_count : Nat
  read_count : Nat
  failed_count : Nat
  status : String
  created_by : Nat
  created_at : String
  completed_at : Option String
deriving DecidableEq, Repr, Inhabited

/-- The message-side store: templates (read by the send handlers, never
written by them), message logs and campaigns with their id counters. -/
structure MsgState where
  templates : List Template
  message_logs : List MessageLog
  campaigns : List Campaign
  next_log_id : Nat
  next_campaign_id : Nat
deriving DecidableEq, Repr, Inhabited

/-- The message store at process start: seeded templates, no logs, no
campaigns. -/
def seedMsgState (now : String) : MsgState :=
  { templates := seedTemplates now
    message_logs := []
    campaigns := []
    next_log_id := 1
    next_campaign_id := 1 }

/-- Body of POST /api/messages/send. The source field name for vars is
"variables" (a reserved word here). -/
structure SendMessageRequest where
  phone : String
  name : String
  type : String
  template_id : Option Nat
  vars : List String
  text : String
deriving DecidableEq, Repr, Inhabited

/-- The condition of the template branch of send_single_message:
message_type == "template" and template_id truthy. -/
def singleIsTemplate (body : SendMessageRequest) : Bool :=
  body.type == "template" && optNatTruthy body.template_id

/-- The condition of the text branch of send_single_message:
message_type == "text" and text_body truthy. -/
def singleIsText (body : SendMessageRequest) : Bool :=
  body.type == "text" && body.text ≠ ""

/-- The JSON body returned by send_single_message (simulated/note keys are
echoed from the gateway result and irrelevant to the claims). -/
structure SendResponse where
  success : Bool
  message_id : Option String
  status : String
deriving DecidableEq, Repr, Inhabited

/-- routes/messages.py send_single_message. The outcome of the single
gateway call is the environment-supplied gw; the payload the handler passes
to the gateway client is returned alongside the new state for inspection. -/
def send_single_message (st : MsgState) (actor : AuthClaims) (body : SendMessageRequest)
    (gw : GatewayResult) (now : String) :
    Except HttpErr (MsgState × SendResponse × WaPayload) :=
  if pyStrip body.phone = "" then
    .error ⟨400, "Phone number required"⟩
  else if validate_phone (pyStrip body.phone) = false then
    .error ⟨400, "Invalid phone number: " ++ pyStrip body.phone⟩
  else if singleIsTemplate body then
    match st.templates.find? (fun t => t.id == body.template_id.getD 0) with
    | none => .error ⟨404, "Template not found"⟩
    | some tmpl =>
      .ok ({ st with
             message_logs := st.message_logs ++ [
               { id := st.next_log_id
                 message_id := gw.message_id
                 recipient_phone := pyStrip body.phone
                 recipient_name := pyOrNone (pyStrip body.name)
                 message_type := body.type
                 template_id := body.template_id
                 template_name := some tmpl.name
                 body_preview := pyTake 100 tmpl.body
                 status := if gw.success then "sent" else "failed"
                 error_message := gw.error
                 sent_by := actor.user_id
                 sent_at := now
                 delivered_at := none
                 read_at := none } ]
             next_log_id := st.next_log_id + 1 },
           ⟨gw.success, gw.message_id, if gw.success then "sent" else "failed"⟩,
           send_template_with_variables_payload (pyStrip body.phone) tmpl.name
             body.vars tmpl.language tmpl.button_url)
  else if singleIsText body then
    .ok ({ st with
           message_logs := st.message_logs ++ [
             { id := st.next_log_id
               message_id := gw.message_id
               recipient_phone := pyStrip body.phone
               recipient_name := pyOrNone (pyStrip body.name)
               message_type := body.type
               template_id := body.template_id
               template_name := none
               body_preview := pyTake 100 body.text
               status := if gw.success then "sent" else "failed"
               error_message := gw.error
               sent_by := actor.user_id
               sent_at := now
               delivered_at := none
               read_at := none } ]
           next_log_id := st.next_log_id + 1 },
         ⟨gw.success, gw.message_id, if gw.success then "sent" else "failed"⟩,
         send_text_message_payload (pyStrip body.phone) body.text)
  else
    .error ⟨400, "Provide template_id or text body"⟩

/-- A resolved bulk recipient (from the JSON list or a CSV row). -/
structure Recipient where
  phone : String
  name : String
  vars : List String
deriving DecidableEq, Repr, Inhabited

/-- One entry of the per-recipient results list of the bulk response:
invalid-phone entries carry an error, dispatched entries carry name and
message id. -/
structure RecipientResult where
  phone : String
  name : Option String
  status : String
  error : Option String
  message_id : Option String
deriving DecidableEq, Repr, Inhabited

/-- The bulk-loop guard: the stripped phone must be truthy and validate. -/
def bulkValidPhone (r : Recipient) : Bool :=
  pyStrip r.phone ≠ "" && validate_phone (pyStrip r.phone)

/-- Accumulator of the bulk send loop. gw_calls counts gateway invocations
so far and indexes the environment-supplied outcome and timestamp streams. -/
structure BulkLoopState where
  sent_count : Nat
  failed_count : Nat
  logs : List MessageLog
  results : List RecipientResult
  payloads : List WaPayload
  next_log_id : Nat
  gw_calls : Nat
deriving Repr, Inhabited

/-- One iteration of the bulk send loop over a recipient: an invalid phone
is tallied as failed with "Invalid phone" and skips the gateway call (and the
log append); otherwise the template is dispatched (no button_url is passed)
and a MessageLog is appended whatever the gateway outcome. -/
def bulkStep (gw : Nat → GatewayResult) (sendTime : Nat → String) (tmpl : Template)
    (tid : Nat) (sender : Nat) (acc : BulkLoopState) (r : Recipient) : BulkLoopState :=
  if pyStrip r.phone = "" ∨ validate_phone (pyStrip r.phone) = false then
    { acc with
      failed_count := acc.failed_count + 1
      results := acc.results ++ [⟨pyStrip r.phone, none, "failed", some "Invalid phone", none⟩] }
  else
    { sent_count := acc.sent_count + (if (gw acc.gw_calls).success then 1 else 0)
      failed_count := acc.failed_count + (if (gw acc.gw_calls).success then 0 else 1)
      logs := acc.logs ++ [
        { id := acc.next_log_id
          message_id := (gw acc.gw_calls).message_id
          recipient_phone := pyStrip r.phone
          recipient_name := some r.name
          message_type := "bulk"
          template_id := some tid
          template_name := some tmpl.name
          body_preview := pyTake 100 tmpl.body
          status := if (gw acc.gw_calls).success then "sent" else "failed"
          error_message := (gw acc.gw_calls).error
          sent_by := sender
          sent_at := sendTime acc.gw_calls
          delivered_at := none
          read_at := none } ]
      results := acc.results ++ [
        ⟨pyStrip r.phone, some r.name, if (gw acc.gw_calls).success then "sent" else "failed",
         none, (gw acc.gw_calls).message_id⟩ ]
      payloads := acc.payloads ++ [
        send_template_with_variables_payload (pyStrip r.phone) tmpl.name r.vars
          tmpl.language none ]
      next_log_id := acc.next_log_id + 1
      gw_calls := acc.gw_calls + 1 }

/-- routes/messages.py send_bulk_message over an already-resolved recipient
list (CSV parsing happens at the HTTP boundary before this logic). Returns
the new state, the finalized campaign, the per-recipient results and the
payloads handed to the gateway client. -/
def send_bulk_message (st : MsgState) (actor : AuthClaims) (campaign_name : String)
    (template_id : Option Nat) (recs : List Recipient) (gw : Nat → GatewayResult)
    (now : String) (sendTime : Nat → String) (doneTime : String) :
    Except HttpErr (MsgState × Campaign × List RecipientResult × List WaPayload) :=
  if recs = [] then
    .error ⟨400, "No valid recipients found"⟩
  else if optNatTruthy template_id = false then
    .error ⟨400, "Template ID required for bulk messaging"⟩
  else
    match st.templates.find? (fun t => t.id == template_id.getD 0) with
    | none => .error ⟨404, "Template not found"⟩
    | some tmpl =>
      let loop := recs.foldl
        (bulkStep gw sendTime tmpl (template_id.getD 0) actor.user_id)
        ⟨0, 0, [], [], [], st.next_log_id, 0⟩
      let campaign : Campaign :=
        { id := st.next_campaign_id
          name := campaign_name
          template_id := template_id.getD 0
          template_name := tmpl.name
          total_recipients := recs.length
          sent_count := loop.sent_count
          delivered_count := 0
          read_count := 0
          failed_count := loop.failed_count
          status := "completed"
          created_by := actor.user_id
          created_at := now
          completed_at := some doneTime }
      .ok ({ st with
             message_logs := st.message_logs ++ loop.logs
             campaigns := st.campaigns ++ [campaign]
             next_log_id := loop.next_log_id
             next_campaign_id := st.next_campaign_id + 1 },
           campaign, loop.results, loop.payloads)

/-- Python string comparison (lexicographic by code point) on char lists. -/
def charListLt : List Char → List Char → Bool
  | [], [] => false
  | [], _ :: _ => true
  | _ :: _, [] => false
  | a :: as, b :: bs =>
    if a.toNat < b.toNat then true
    else if b.toNat < a.toNat then false
    else charListLt as bs

/-- Python s1 < s2 on strings. -/
def pyStrLt (a b : String) : Bool :=
  charListLt a.data b.data

/-- Stable insertion of a log into a list sorted by sent_at descending: the
inserted log precedes strictly older entries and follows equal-or-newer ones
(the list built by foldr from the right, so ties keep original order). -/
def insertLogDesc (a : MessageLog) : List MessageLog → List MessageLog
  | [] => [a]
  | x :: xs =>
    if pyStrLt a.sent_at x.sent_at then x :: insertLogDesc a xs
    else a :: x :: xs

/-- Python's stable list.sort(key=sent_at, reverse=True), modelled as a
stable insertion sort; the claims depend only on the result being a
permutation sorted descending by sent_at. -/
def sortLogsBySentAtDesc (ls : List MessageLog) : List MessageLog :=
  ls.foldr insertLogDesc []

/-- Inserting is a permutation with consing. -/
theorem insertLogDesc_perm (a : MessageLog) (l : List MessageLog) :
    (insertLogDesc a l).Perm (a :: l) := by
  induction l with
  | nil => exact List.Perm.refl _
  | cons x xs ih =>
    cases h : pyStrLt a.sent_at x.sent_at with
    | true =>
      simp only [insertLogDesc, h, if_true]
      exact (ih.cons x).trans (List.Perm.swap a x xs)
    | false =>
      simp only [insertLogDesc, h, if_false]
      exact List.Perm.refl _

/-- The sort is a permutation of its input. -/
theorem sortLogs_perm (ls : List MessageLog) :
    (sortLogsBySentAtDesc ls).Perm ls := by
  induction ls with
  | nil => exact List.Perm.refl _
  | cons a l ih => exact (insertLogDesc_perm a _).trans (ih.cons a)

/-- routes/messages.py get_campaign_detail: find the campaign, select the
logs whose template_name snapshot equals the campaign's, sort by sent_at
descending and truncate to 100. -/
def get_campaign_detail (st : MsgState) (campaign_id : Nat) :
    Except HttpErr (Campaign × List MessageLog) :=
  match st.campaigns.find? (fun c => c.id == campaign_id) with
  | none => .error ⟨404, "Campaign not found"⟩
  | some campaign =>
    .ok (campaign,
      (sortLogsBySentAtDesc (st.message_logs.filter
          (fun l => l.template_name == some campaign.template_name))).take 100)

/-! ## Webhooks: routes/webhooks.py -/

/-- One entry of a status update's "errors" list; only "title" is read. -/
structure WebhookErr where
  title : Option String
deriving DecidableEq, Repr, Inhabited

/-- One status update of an inbound webhook: id and status may be missing. -/
structure WebhookStatusUpdate where
  id : Option String
  status : Option String
  errors : Option (List WebhookErr)
deriving DecidableEq, Repr, Inhabited

/-- The "value" object of a change; missing "statuses" is the empty list. -/
structure WebhookValue where
  statuses : List WebhookStatusUpdate
deriving DecidableEq, Repr, Inhabited

/-- One entry of an entry's "changes" list. -/
structure WebhookChange where
  value : WebhookValue
deriving DecidableEq, Repr, Inhabited

/-- One entry of the payload's "entry" list. -/
structure WebhookEntry where
  changes : List WebhookChange
deriving DecidableEq, Repr, Inhabited

/-- A well-shaped inbound webhook POST body. -/
structure WebhookPayload where
  entry : List WebhookEntry
deriving DecidableEq, Repr, Inhabited

/-- The status updates visited by the triple nested loop of receive_webhook,
in visiting order. -/
def flattenStatuses (p : WebhookPayload) : List WebhookStatusUpdate :=
  p.entry.flatMap (fun e => e.changes.flatMap (fun c => c.value.statuses))

/-- The error message recorded for a "failed" status: errors defaults to
a one-empty-dict list when the key is absent, so a missing key yields
"Unknown error", a present-but-empty list yields "Failed", and a nonempty
list yields its first title (default "Unknown error"). -/
def webhookErrMsg (u : WebhookStatusUpdate) : String :=
  match u.errors with
  | none => "Unknown error"
  | some [] => "Failed"
  | some (e :: _) => e.title.getD "Unknown error"

/-- The in-place mutation receive_webhook performs on a matched log: the
status string is assigned verbatim, and the corresponding timestamp or error
message is set. -/
def applyLogStatus (s ts : String) (u : WebhookStatusUpdate) (l : MessageLog) :
    MessageLog :=
  if s == "delivered" then { l with status := s, delivered_at := some ts }
  else if s == "read" then { l with status := s, read_at := some ts }
  else if s == "failed" then { l with status := s, error_message := some (webhookErrMsg u) }
  else { l with status := s }

/-- Processing of one status update: when both id and status are truthy, a
timestamp is drawn and the first log with that provider message id (if any)
is mutated; otherwise nothing happens. The Nat component counts timestamp
draws. -/
def applyStatusUpdate (times : Nat → String) (acc : MsgState × Nat)
    (u : WebhookStatusUpdate) : MsgState × Nat :=
  match u.id, u.status with
  | some i, some s =>
    if i ≠ "" ∧ s ≠ "" then
      ({ acc.1 with
         message_logs := updateFirst (fun l => l.message_id == some i)
           (applyLogStatus s (times acc.2) u) acc.1.message_logs },
       acc.2 + 1)
    else acc
  | _, _ => acc

/-- routes/webhooks.py receive_webhook on a well-shaped payload: walk every
status update and answer {"status": "ok"} unconditionally. -/
def receive_webhook (st : MsgState) (times : Nat → String) (p : WebhookPayload) :
    MsgState × String :=
  (((flattenStatuses p).foldl (applyStatusUpdate times) (st, 0)).1, "ok")

/-! ## Message-store reachability -/

/-- One message-side operation with its environment inputs. -/
inductive MsgOp where
  | single (actor : AuthClaims) (body : SendMessageRequest) (gw : GatewayResult) (now : String)
  | bulk (actor : AuthClaims) (campaign_name : String) (template_id : Option Nat)
      (recs : List Recipient) (gw : Nat → GatewayResult) (now : String)
      (sendTime : Nat → String) (doneTime : String)
  | webhook (p : WebhookPayload) (times : Nat → String)

/-- The webhook payload of an operation, when it is a webhook delivery. -/
def msgOpPayload : MsgOp → Option WebhookPayload
  | .webhook p _ => some p
  | _ => none

/-- Apply a message operation; a 4xx rejection leaves the store unchanged. -/
def applyMsgOp (st : MsgState) (op : MsgOp) : MsgState :=
  match op with
  | .single actor body gw now =>
    match send_single_message st actor body gw now with
    | .ok out => out.1
    | .error _ => st
  | .bulk actor cname tid recs gw now sendTime doneTime =>
    match send_bulk_message st actor cname tid recs gw now sendTime doneTime with
    | .ok out => out.1
    | .error _ => st
  | .webhook p times => (receive_webhook st times p).1

/-- Run a sequence of message operations. -/
def runMsgOps (st : MsgState) (ops : List MsgOp) : MsgState :=
  ops.foldl applyMsgOp st

/-- Message-store states reachable from the seeded store via single sends,
bulk sends and webhook deliveries whose payloads satisfy P. -/
inductive MsgReachable (P : WebhookPayload → Prop) : MsgState → Prop where
  | seed (now : String) : MsgReachable P (seedMsgState now)
  | step (st : MsgState) (op : MsgOp)
      (hp : ∀ p, msgOpPayload op = some p → P p) :
      MsgReachable P st → MsgReachable P (applyMsgOp st op)

/-- Auxiliary induction for msgReachable_runOps. -/
theorem msgReachable_runOps_aux (P : WebhookPayload → Prop) (ops : List MsgOp) :
    ∀ st, MsgReachable P st →
      (∀ op ∈ ops, ∀ p, msgOpPayload op = some p → P p) →
      MsgReachable P (runMsgOps st ops) := by
  induction ops with
  | nil =>
    intro st hst _
    exact hst
  | cons op ops ih =>
    intro st hst hops
    exact ih (applyMsgOp st op)
      (MsgReachable.step st op (hops op (List.mem_cons_self op ops)) hst)
      (fun o ho => hops o (List.mem_cons_of_mem op ho))

/-- Any state computed by running operations whose webhook payloads satisfy
P is reachable. -/
theorem msgReachable_runOps (P : WebhookPayload → Prop) (now : String)
    (ops : List MsgOp) (h : ∀ op ∈ ops, ∀ p, msgOpPayload op = some p → P p) :
    MsgReachable P (runMsgOps (seedMsgState now) ops) :=
  msgReachable_runOps_aux P ops (seedMsgState now) (MsgReachable.seed now) h

/-! ## C10 — campaign detail selects logs by template-name snapshot -/

/-- C10: for every campaign id that resolves, the logs returned by
GET /api/messages/campaigns/{id} are drawn from the full message log by
template_name snapshot equality alone — every returned log carries the
campaign's template_name, and (whenever at most 100 logs match, so the
truncation bites nothing) every log in the store with that template_name is
returned, including logs written by other campaigns or by single sends. -/
theorem C10_campaign_detail (st : MsgState) (cid : Nat) (camp : Campaign)
    (ls : List MessageLog) (h : get_campaign_detail st cid = .ok (camp, ls)) :
    st.campaigns.find? (fun c => c.id == cid) = some camp ∧
    (∀ l ∈ ls, l.template_name = some camp.template_name ∧ l ∈ st.message_logs) ∧
    ((st.message_logs.filter
        (fun l => l.template_name == some camp.template_name)).length ≤ 100 →
      ∀ l ∈ st.message_logs, l.template_name = some camp.template_name → l ∈ ls) := by
  unfold get_campaign_detail at h
  cases hfind : st.campaigns.find? (fun c => c.id == cid) with
  | none =>
    rw [hfind] at h
    cases h
  | some c =>
    rw [hfind] at h
    cases h
    refine ⟨rfl, ?_, ?_⟩
    · intro l hl
      have hl2 : l ∈ st.message_logs.filter
          (fun x => x.template_name == some camp.template_name) :=
        ((sortLogs_perm _).mem_iff).1 (List.mem_of_mem_take hl)
      have hl3 := List.mem_filter.1 hl2
      exact ⟨by simpa using hl3.2, hl3.1⟩
    · intro hlen l hl hname
      have hmem : l ∈ st.message_logs.filter
          (fun x => x.template_name == some camp.template_name) :=
        List.mem_filter.2 ⟨hl, by simp [hname]⟩
      have hsorted := ((sortLogs_perm
        (st.message_logs.filter
          (fun x => x.template_name == some camp.template_name))).mem_iff).2 hmem
      rw [List.take_of_length_le (by
        rw [(sortLogs_perm _).length_eq]
        exact hlen)]
      exact hsorted

/-- Project the payload out of a successful handler outcome (junk default on
the error side, used only to name concrete successful runs in witnesses). -/
def exOk {ε α : Type} [Inhabited α] : Except ε α → α
  | .ok a => a
  | .error _ => default

/-- A concrete store and campaign for the C10 witness: campaign 1 snapshots
template_name "service_update", and the store holds one bulk log of that
campaign, one single-send log with the same template name, and one unrelated
log. -/
def c10state : MsgState :=
  { templates := seedTemplates "t0"
    message_logs := [
      { id := 1, message_id := some "wamid.K1", recipient_phone := "919876543210"
        recipient_name := some "A", message_type := "bulk", template_id := some 1
        template_name := some "service_update", body_preview := "x", status := "sent"
        error_message := none, sent_by := 1, sent_at := "t2"
        delivered_at := none, read_at := none },
      { id := 2, message_id := some "wamid.K2", recipient_phone := "919876543211"
        recipient_name := none, message_type := "template", template_id := some 1
        template_name := some "service_update", body_preview := "x", status := "failed"
        error_message := some "boom", sent_by := 1, sent_at := "t3"
        delivered_at := none, read_at := none },
      { id := 3, message_id := some "wamid.K3", recipient_phone := "919876543212"
        recipient_name := none, message_type := "template", template_id := some 4
        template_name := some "welcome_message", body_preview := "y", status := "sent"
        error_message := none, sent_by := 1, sent_at := "t4"
        delivered_at := none, read_at := none } ]
    campaigns := [
      { id := 1, name := "K", template_id := 1, template_name := "service_update"
        total_recipients := 1, sent_count := 1, delivered_count := 0, read_count := 0
        failed_count := 0, status := "completed", created_by := 1
        created_at := "t1", completed_at := some "t2" } ]
    next_log_id := 4
    next_campaign_id := 2 }

/-- C10 witness: on the concrete store, the campaign-1 detail call selects
both same-template-name logs (the single-send one included) and carries the
campaign's template name on each. -/
theorem C10_witness :
    c10state.campaigns.find? (fun c => c.id == 1) = some (exOk (get_campaign_detail c10state 1)).1 ∧
    (∀ l ∈ (exOk (get_campaign_detail c10state 1)).2,
      l.template_name = some (exOk (get_campaign_detail c10state 1)).1.template_name ∧
      l ∈ c10state.message_logs) ∧
    ((c10state.message_logs.filter
        (fun l => l.template_name ==
          some (exOk (get_campaign_detail c10state 1)).1.template_name)).length ≤ 100 →
      ∀ l ∈ c10state.message_logs,
        l.template_name = some (exOk (get_campaign_detail c10state 1)).1.template_name →
        l ∈ (exOk (get_campaign_detail c10state 1)).2) :=
  C10_campaign_detail c10state 1 (exOk (get_campaign_detail c10state 1)).1
    (exOk (get_campaign_detail c10state 1)).2 (by decide)

/-! ## C7 — webhook with unknown message ids is a no-op -/

/-- C7: a webhook POST all of whose status updates carry message ids that
match no stored MessageLog leaves the whole message store unchanged — every
field of every log included — and still answers {"status": "ok"}. -/
theorem C7_webhook_unknown_ids (st : MsgState) (times : Nat → String)
    (p : WebhookPayload)
    (h : ∀ u ∈ flattenStatuses p, ∀ i, u.id = some i →
      ∀ l ∈ st.message_logs, l.message_id ≠ some i) :
    receive_webhook st times p = (st, "ok") := by
  unfold receive_webhook
  have hgen : ∀ us : List WebhookStatusUpdate,
      (∀ u ∈ us, ∀ i, u.id = some i → ∀ l ∈ st.message_logs, l.message_id ≠ some i) →
      ∀ k, (us.foldl (applyStatusUpdate times) (st, k)).1 = st := by
    intro us
    induction us with
    | nil =>
      intro _ k
      rfl
    | cons u us ih =>
      intro hus k
      have hstep : applyStatusUpdate times (st, k) u = (st, k) ∨
          applyStatusUpdate times (st, k) u = (st, k + 1) := by
        unfold applyStatusUpdate
        cases hid : u.id with
        | none => exact Or.inl rfl
        | some i =>
          cases hstat : u.status with
          | none => exact Or.inl rfl
          | some s =>
            by_cases hne : i ≠ "" ∧ s ≠ ""
            · refine Or.inr ?_
              have hupd : updateFirst (fun l => l.message_id == some i)
                  (applyLogStatus s (times k) u) st.message_logs = st.message_logs :=
                updateFirst_of_no_match _ _ _ (fun l hl => by
                  have := hus u (List.mem_cons_self u us) i hid l hl
                  simp [this])
              simp [hne, hupd]
            · refine Or.inl ?_
              simp [hne]
      have htail : ∀ x ∈ us, ∀ i, x.id = some i →
          ∀ l ∈ st.message_logs, l.message_id ≠ some i :=
        fun x hx => hus x (List.mem_cons_of_mem u hx)
      rcases hstep with h1 | h1
      · rw [List.foldl_cons, h1]
        exact ih htail k
      · rw [List.foldl_cons, h1]
        exact ih htail (k + 1)
  rw [hgen (flattenStatuses p) h 0]

/-- A concrete store for the C7 witness: one log with provider id wamid.A. -/
def c7state : MsgState :=
  { templates := seedTemplates "t0"
    message_logs := [
      { id := 1, message_id := some "wamid.A", recipient_phone := "919876543210"
        recipient_name := none, message_type := "template", template_id := some 1
        template_name := some "service_update", body_preview := "x", status := "sent"
        error_message := none, sent_by := 1, sent_at := "t1"
        delivered_at := none, read_at := none } ]
    campaigns := []
    next_log_id := 2
    next_campaign_id := 1 }

/-- A webhook payload for the C7 witness: one delivered status for the
unknown provider id wamid.B. -/
def c7payload : WebhookPayload :=
  ⟨[⟨[⟨⟨[⟨some "wamid.B", some "delivered", none⟩]⟩⟩]⟩]⟩

/-- C7 witness: the unknown-id webhook leaves the concrete store untouched
and answers ok. -/
theorem C7_witness :
    receive_webhook c7state (fun _ => "t2") c7payload = (c7state, "ok") :=
  C7_webhook_unknown_ids c7state (fun _ => "t2") c7payload (by decide)

/-! ## C1 — bulk send log accounting -/

/-- The loop guard fails exactly when the recipient's phone is not valid. -/
theorem bulkValidPhone_eq_false (r : Recipient) :
    bulkValidPhone r = false ↔
      (pyStrip r.phone = "" ∨ validate_phone (pyStrip r.phone) = false) := by
  constructor
  · intro h
    by_cases h1 : pyStrip r.phone = ""
    · exact Or.inl h1
    · refine Or.inr ?_
      by_cases h2 : validate_phone (pyStrip r.phone) = true
      · exact absurd h (by simp [bulkValidPhone, h1, h2])
      · simpa using h2
  · intro h
    rcases h with h | h <;> simp [bulkValidPhone, h]

/-- Effect of one loop iteration on an invalid-phone recipient: only the
failure tally and the results list change — in particular no log. -/
theorem bulkStep_invalid (gw : Nat → GatewayResult) (sendTime : Nat → String)
    (tmpl : Template) (tid sender : Nat) (acc : BulkLoopState) (r : Recipient)
    (h : pyStrip r.phone = "" ∨ validate_phone (pyStrip r.phone) = false) :
    (bulkStep gw sendTime tmpl tid sender acc r).logs = acc.logs ∧
    (bulkStep gw sendTime tmpl tid sender acc r).sent_count = acc.sent_count ∧
    (bulkStep gw sendTime tmpl tid sender acc r).failed_count = acc.failed_count + 1 := by
  unfold bulkStep
  rw [if_pos h]
  exact ⟨rfl, rfl, rfl⟩

/-- Effect of one loop iteration on a valid-phone recipient: exactly one log
is appended whatever the gateway outcome, and exactly one of the two
counters advances. -/
theorem bulkStep_valid (gw : Nat → GatewayResult) (sendTime : Nat → String)
    (tmpl : Template) (tid sender : Nat) (acc : BulkLoopState) (r : Recipient)
    (h : ¬(pyStrip r.phone = "" ∨ validate_phone (pyStrip r.phone) = false)) :
    (bulkStep gw sendTime tmpl tid sender acc r).logs.length = acc.logs.length + 1 ∧
    (bulkStep gw sendTime tmpl tid sender acc r).sent_count +
      (bulkStep gw sendTime tmpl tid sender acc r).failed_count =
      acc.sent_count + acc.failed_count + 1 ∧
    acc.failed_count ≤ (bulkStep gw sendTime tmpl tid sender acc r).failed_count := by
  unfold bulkStep
  rw [if_neg h]
  refine ⟨by simp, ?_, ?_⟩
  · cases hgs : (gw acc.gw_calls).success <;> simp [hgs] <;> omega
  · cases hgs : (gw acc.gw_calls).success <;> simp [hgs]

/-- Loop invariant: one log per valid-phone recipient, one counter advance
per recipient, and at least one failure per invalid-phone recipient. -/
theorem bulkLoop_counts (gw : Nat → GatewayResult) (sendTime : Nat → String)
    (tmpl : Template) (tid sender : Nat) (recs : List Recipient) :
    ∀ acc : BulkLoopState,
      (recs.foldl (bulkStep gw sendTime tmpl tid sender) acc).logs.length =
        acc.logs.length + (recs.filter bulkValidPhone).length ∧
      (recs.foldl (bulkStep gw sendTime tmpl tid sender) acc).sent_count +
        (recs.foldl (bulkStep gw sendTime tmpl tid sender) acc).failed_count =
        acc.sent_count + acc.failed_count + recs.length ∧
      acc.failed_count + (recs.filter (fun r => !bulkValidPhone r)).length ≤
        (recs.foldl (bulkStep gw sendTime tmpl tid sender) acc).failed_count := by
  induction recs with
  | nil =>
    intro acc
    exact ⟨by simp, by simp, by simp⟩
  | cons r rs ih =>
    intro acc
    rw [List.foldl_cons]
    obtain ⟨ih1, ih2, ih3⟩ := ih (bulkStep gw sendTime tmpl tid sender acc r)
    by_cases hv : pyStrip r.phone = "" ∨ validate_phone (pyStrip r.phone) = false
    · obtain ⟨hl, hs, hf⟩ := bulkStep_invalid gw sendTime tmpl tid sender acc r hv
      have hbv : bulkValidPhone r = false := (bulkValidPhone_eq_false r).2 hv
      refine ⟨?_, ?_, ?_⟩
      · rw [ih1, hl, List.filter_cons, hbv]
        simp
      · rw [ih2, hs, hf, List.length_cons]
        omega
      · refine le_trans ?_ ih3
        rw [hf, List.filter_cons]
        simp [hbv]
        omega
    · obtain ⟨hl, hsf, hf⟩ := bulkStep_valid gw sendTime tmpl tid sender acc r hv
      have hbv : bulkValidPhone r = true := by
        cases hb : bulkValidPhone r with
        | true => rfl
        | false => exact absurd ((bulkValidPhone_eq_false r).1 hb) hv
      refine ⟨?_, ?_, ?_⟩
      · rw [ih1, hl, List.filter_cons, hbv]
        simp
        omega
      · rw [ih2, List.length_cons]
        omega
      · refine le_trans ?_ ih3
        rw [List.filter_cons]
        simp [hbv]
        omega

/-- C1 (amended): a successful bulk send records total_recipients equal to
the resolved recipient count and appends a MessageLog for exactly the
recipients whose phone validates — regardless of the gateway outcome for
each — while every recipient advances exactly one of the sent/failed
counters and every invalid-phone recipient is tallied as failed (with no
log). In the 3-recipient, 1-invalid scenario this yields
total_recipients = 3, failed_count ≥ 1 and exactly 2 appended logs. -/
theorem C1_bulk_logs (st : MsgState) (actor : AuthClaims) (cname : String)
    (template_id : Option Nat) (recs : List Recipient) (gw : Nat → GatewayResult)
    (now : String) (sendTime : Nat → String) (doneTime : String)
    (out : MsgState × Campaign × List RecipientResult × List WaPayload)
    (h : send_bulk_message st actor cname template_id recs gw now sendTime doneTime =
      .ok out) :
    out.2.1.total_recipients = recs.length ∧
    out.1.message_logs.length =
      st.message_logs.length + (recs.filter bulkValidPhone).length ∧
    out.2.1.sent_count + out.2.1.failed_count = recs.length ∧
    (recs.filter (fun r => !bulkValidPhone r)).length ≤ out.2.1.failed_count := by
  unfold send_bulk_message at h
  split at h
  · cases h
  · split at h
    · cases h
    · cases hfind : st.templates.find? (fun t => t.id == template_id.getD 0) with
      | none =>
        rw [hfind] at h
        cases h
      | some tmpl =>
        rw [hfind] at h
        dsimp only at h
        cases h
        obtain ⟨h1, h2, h3⟩ := bulkLoop_counts gw sendTime tmpl (template_id.getD 0)
          actor.user_id recs ⟨0, 0, [], [], [], st.next_log_id, 0⟩
        refine ⟨rfl, ?_, ?_, ?_⟩
        · simpa using h1
        · simpa using h2
        · simpa using h3

/-- The bulk recipients of the C1 counterexample: three resolved recipients,
the second with an invalid phone. -/
def c1recs : List Recipient :=
  [⟨"9876543210", "A", []⟩, ⟨"abc", "B", []⟩, ⟨"9876543211", "C", []⟩]

/-- An always-successful gateway for the C1 counterexample. -/
def c1gw : Nat → GatewayResult :=
  fun _ => ⟨true, some "wamid.TEST", none⟩

/-- C1 counterexample: the 3-recipient bulk send with 1 invalid phone indeed
creates a campaign with total_recipients = 3 and failed_count = 1, but
appends only 2 MessageLog entries, not 3 — the invalid-phone recipient is
tallied and skipped before the log append. -/
theorem C1_counterexample :
    (send_bulk_message (seedMsgState "t0") ⟨1, "admin", "admin"⟩ "October Drive"
        (some 1) c1recs c1gw "t1" (fun _ => "t2") "t3").map
      (fun out =>
        (out.2.1.total_recipients, out.2.1.failed_count, out.1.message_logs.length)) =
      .ok (3, 1, 2) := by
  decide

/-- The recipients of the C1 witness run: one valid, one empty phone. -/
def c1wrecs : List Recipient :=
  [⟨"12345678", "D", ["v"]⟩, ⟨"", "E", []⟩]

/-- The C1 witness run: a failing gateway, so the valid recipient also ends
up failed yet still gets its log. -/
def c1wout : Except HttpErr (MsgState × Campaign × List RecipientResult × List WaPayload) :=
  send_bulk_message (seedMsgState "t0") ⟨1, "admin", "admin"⟩ "W" (some 2) c1wrecs
    (fun _ => ⟨false, none, some "boom"⟩) "t1" (fun _ => "t2") "t3"

/-- C1 witness: the amended accounting at the concrete two-recipient run. -/
theorem C1_witness :
    (exOk c1wout).2.1.total_recipients = c1wrecs.length ∧
    (exOk c1wout).1.message_logs.length =
      (seedMsgState "t0").message_logs.length + (c1wrecs.filter bulkValidPhone).length ∧
    (exOk c1wout).2.1.sent_count + (exOk c1wout).2.1.failed_count = c1wrecs.length ∧
    (c1wrecs.filter (fun r => !bulkValidPhone r)).length ≤ (exOk c1wout).2.1.failed_count :=
  C1_bulk_logs (seedMsgState "t0") ⟨1, "admin", "admin"⟩ "W" (some 2) c1wrecs
    (fun _ => ⟨false, none, some "boom"⟩) "t1" (fun _ => "t2") "t3" (exOk c1wout)
    (by decide)

/-! ## C9 — bulk send drops the template's button URL -/

/-- A template payload built without a button_url has no URL-button
component. -/
theorem hasUrlButton_of_none (phone tname : String) (vars : List String)
    (lang : String) :
    hasUrlButton (send_template_with_variables_payload phone tname vars lang none) =
      false := by
  unfold hasUrlButton send_template_with_variables_payload buildTemplateComponents
  by_cases hv : vars = [] <;> simp [hv, optStrTruthy]

/-- A template payload built with a truthy button_url carries a URL-button
component. -/
theorem hasUrlButton_of_truthy (phone tname : String) (vars : List String)
    (lang : String) (bu : Option String) (h : optStrTruthy bu = true) :
    hasUrlButton (send_template_with_variables_payload phone tname vars lang bu) =
      true := by
  unfold hasUrlButton send_template_with_variables_payload buildTemplateComponents
  by_cases hv : vars = [] <;> simp [hv, h]

/-- Every payload the bulk loop hands to the gateway lacks a URL-button
component, because the loop never passes the template's button_url. -/
theorem bulkLoop_payloads (gw : Nat → GatewayResult) (sendTime : Nat → String)
    (tmpl : Template) (tid sender : Nat) (recs : List Recipient) :
    ∀ acc : BulkLoopState, (∀ q ∈ acc.payloads, hasUrlButton q = false) →
      ∀ q ∈ (recs.foldl (bulkStep gw sendTime tmpl tid sender) acc).payloads,
        hasUrlButton q = false := by
  induction recs with
  | nil =>
    intro acc hacc
    exact hacc
  | cons r rs ih =>
    intro acc hacc
    rw [List.foldl_cons]
    refine ih (bulkStep gw sendTime tmpl tid sender acc r) ?_
    intro q hq
    unfold bulkStep at hq
    by_cases hv : pyStrip r.phone = "" ∨ validate_phone (pyStrip r.phone) = false
    · rw [if_pos hv] at hq
      exact hacc q hq
    · rw [if_neg hv] at hq
      simp only [List.mem_append, List.mem_singleton] at hq
      rcases hq with hq | hq
      · exact hacc q hq
      · rw [hq]
        exact hasUrlButton_of_none _ _ _ _

/-- C9: no payload a bulk send hands to the gateway carries a URL-button
component, while a template payload built with a set (non-null, hence
nonempty) button_url does, and the two payloads differ; moreover any
successful single send that resolved a template with a truthy button_url
handed the gateway a payload with the URL button attached. -/
theorem C9_bulk_single_payloads (st : MsgState) (actor : AuthClaims) (cname : String)
    (template_id : Option Nat) (recs : List Recipient) (gw : Nat → GatewayResult)
    (now : String) (sendTime : Nat → String) (doneTime : String)
    (out : MsgState × Campaign × List RecipientResult × List WaPayload)
    (h : send_bulk_message st actor cname template_id recs gw now sendTime doneTime =
      .ok out)
    (phone tname lang url : String) (vars : List String) (hurl : url ≠ "") :
    (∀ q ∈ out.2.2.2, hasUrlButton q = false) ∧
    hasUrlButton (send_template_with_variables_payload phone tname vars lang (some url)) =
      true ∧
    send_template_with_variables_payload phone tname vars lang (some url) ≠
      send_template_with_variables_payload phone tname vars lang none ∧
    (∀ st1 actor1 body1 gwr now1 out1 tmpl,
      send_single_message st1 actor1 body1 gwr now1 = .ok out1 →
      singleIsTemplate body1 = true →
      st1.templates.find? (fun t => t.id == body1.template_id.getD 0) = some tmpl →
      optStrTruthy tmpl.button_url = true →
      hasUrlButton out1.2.2 = true) := by
  have hbtn : hasUrlButton
      (send_template_with_variables_payload phone tname vars lang (some url)) = true :=
    hasUrlButton_of_truthy phone tname vars lang (some url) (by simp [optStrTruthy, hurl])
  refine ⟨?_, hbtn, ?_, ?_⟩
  · -- the payload list of a successful bulk send comes from the loop
    unfold send_bulk_message at h
    split at h
    · cases h
    · split at h
      · cases h
      · cases hfind : st.templates.find? (fun t => t.id == template_id.getD 0) with
        | none =>
          rw [hfind] at h
          cases h
        | some tmpl =>
          rw [hfind] at h
          dsimp only at h
          cases h
          exact bulkLoop_payloads gw sendTime tmpl (template_id.getD 0) actor.user_id
            recs ⟨0, 0, [], [], [], st.next_log_id, 0⟩ (by intro q hq; cases hq)
  · intro heq
    rw [heq, hasUrlButton_of_none phone tname vars lang] at hbtn
    cases hbtn
  · intro st1 actor1 body1 gwr now1 out1 tmpl hsend htpl hfind hbu
    unfold send_single_message at hsend
    split at hsend
    · cases hsend
    · split at hsend
      · cases hsend
      · rw [hfind] at hsend
        cases hsend
        exact hasUrlButton_of_truthy _ _ _ _ _ hbu

/-- The C9 witness bulk run: template 2 (group_invite) has a non-null
button_url, yet the bulk payload omits it. -/
def c9out : Except HttpErr (MsgState × Campaign × List RecipientResult × List WaPayload) :=
  send_bulk_message (seedMsgState "t0") ⟨1, "admin", "admin"⟩ "C9 run" (some 2)
    [⟨"9876543210", "A", ["x"]⟩] (fun _ => ⟨true, some "wamid.C9", none⟩) "t1"
    (fun _ => "t2") "t3"

/-- C9 witness: the concrete single-send payload of template group_invite
carries the URL button (while the bulk payloads of the same template, by the
theorem's first conjunct, do not). -/
theorem C9_witness :
    hasUrlButton (send_template_with_variables_payload "9876543210" "group_invite"
      ["x"] "en" (some "https://chat.whatsapp.com/example")) = true :=
  (C9_bulk_single_payloads (seedMsgState "t0") ⟨1, "admin", "admin"⟩ "C9 run" (some 2)
    [⟨"9876543210", "A", ["x"]⟩] (fun _ => ⟨true, some "wamid.C9", none⟩) "t1"
    (fun _ => "t2") "t3" (exOk c9out) (by decide) "9876543210" "group_invite" "en"
    "https://chat.whatsapp.com/example" ["x"] (by decide)).2.1

/-! ## C6 — message statuses -/

/-- The webhook mutation always assigns the payload's status string verbatim,
whatever it is. -/
theorem applyLogStatus_status (s ts : String) (u : WebhookStatusUpdate)
    (l : MessageLog) : (applyLogStatus s ts u l).status = s := by
  unfold applyLogStatus
  split
  · rfl
  · split
    · rfl
    · split
      · rfl
      · rfl

/-- A successful single send appends exactly one log, whose status is sent
or failed according to the gateway outcome. -/
theorem send_single_ok_logs (st : MsgState) (actor : AuthClaims)
    (body : SendMessageRequest) (gwr : GatewayResult) (now : String)
    (out : MsgState × SendResponse × WaPayload)
    (h : send_single_message st actor body gwr now = .ok out) :
    ∃ lg, out.1.message_logs = st.message_logs ++ [lg] ∧
      (lg.status = "sent" ∨ lg.status = "failed") := by
  unfold send_single_message at h
  split at h
  · cases h
  · split at h
    · cases h
    · split at h
      · cases hfind : st.templates.find? (fun t => t.id == body.template_id.getD 0) with
        | none =>
          rw [hfind] at h
          cases h
        | some tmpl =>
          rw [hfind] at h
          cases h
          refine ⟨_, rfl, ?_⟩
          cases hgs : gwr.success <;> simp [hgs]
      · split at h
        · cases h
          refine ⟨_, rfl, ?_⟩
          cases hgs : gwr.success <;> simp [hgs]
        · cases h

/-- Every log appended by the bulk loop has status sent or failed. -/
theorem bulkLoop_statuses (gw : Nat → GatewayResult) (sendTime : Nat → String)
    (tmpl : Template) (tid sender : Nat) (recs : List Recipient) :
    ∀ acc : BulkLoopState, (∀ l ∈ acc.logs, l.status = "sent" ∨ l.status = "failed") →
      ∀ l ∈ (recs.foldl (bulkStep gw sendTime tmpl tid sender) acc).logs,
        l.status = "sent" ∨ l.status = "failed" := by
  induction recs with
  | nil =>
    intro acc hacc
    exact hacc
  | cons r rs ih =>
    intro acc hacc
    rw [List.foldl_cons]
    refine ih (bulkStep gw sendTime tmpl tid sender acc r) ?_
    intro l hl
    unfold bulkStep at hl
    by_cases hv : pyStrip r.phone = "" ∨ validate_phone (pyStrip r.phone) = false
    · rw [if_pos hv] at hl
      exact hacc l hl
    · rw [if_neg hv] at hl
      simp only [List.mem_append, List.mem_singleton] at hl
      rcases hl with hl | hl
      · exact hacc l hl
      · rw [hl]
        cases hgs : (gw acc.gw_calls).success <;> simp [hgs]

/-- A successful bulk send appends only sent/failed logs. -/
theorem send_bulk_ok_logs (st : MsgState) (actor : AuthClaims) (cname : String)
    (template_id : Option Nat) (recs : List Recipient) (gw : Nat → GatewayResult)
    (now : String) (sendTime : Nat → String) (doneTime : String)
    (out : MsgState × Campaign × List RecipientResult × List WaPayload)
    (h : send_bulk_message st actor cname template_id recs gw now sendTime doneTime =
      .ok out) :
    ∃ ls, out.1.message_logs = st.message_logs ++ ls ∧
      ∀ l ∈ ls, l.status = "sent" ∨ l.status = "failed" := by
  unfold send_bulk_message at h
  split at h
  · cases h
  · split at h
    · cases h
    · cases hfind : st.templates.find? (fun t => t.id == template_id.getD 0) with
      | none =>
        rw [hfind] at h
        cases h
      | some tmpl =>
        rw [hfind] at h
        dsimp only at h
        cases h
        exact ⟨_, rfl, bulkLoop_statuses gw sendTime tmpl (template_id.getD 0)
          actor.user_id recs ⟨0, 0, [], [], [], st.next_log_id, 0⟩
          (fun l hl => absurd hl (List.not_mem_nil l))⟩

/-- Processing one status update keeps every log status inside S whenever the
update's status value (if any) lies in S. -/
theorem applyStatusUpdate_statuses (times : Nat → String) (S : List String)
    (stk : MsgState × Nat) (u : WebhookStatusUpdate)
    (hu : ∀ s, u.status = some s → s ∈ S)
    (hstk : ∀ l ∈ stk.1.message_logs, l.status ∈ S) :
    ∀ l ∈ (applyStatusUpdate times stk u).1.message_logs, l.status ∈ S := by
  intro l hl
  unfold applyStatusUpdate at hl
  cases hid : u.id with
  | none =>
    rw [hid] at hl
    exact hstk l (by simpa using hl)
  | some i =>
    cases hstat : u.status with
    | none =>
      rw [hid, hstat] at hl
      exact hstk l (by simpa using hl)
    | some s =>
      rw [hid, hstat] at hl
      dsimp only at hl
      by_cases hne : i ≠ "" ∧ s ≠ ""
      · rw [if_pos hne] at hl
        rcases mem_updateFirst (fun x => x.message_id == some i)
            (applyLogStatus s (times stk.2) u) stk.1.message_logs l hl with
          hmem | ⟨a, ha, hla⟩
        · exact hstk l hmem
        · rw [hla, applyLogStatus_status]
          exact hu s hstat
      · rw [if_neg hne] at hl
        exact hstk l hl

/-- The whole webhook walk keeps every log status inside S whenever every
status value of the payload lies in S. -/
theorem webhook_fold_statuses (times : Nat → String) (S : List String) :
    ∀ us : List WebhookStatusUpdate,
      (∀ u ∈ us, ∀ s, u.status = some s → s ∈ S) →
      ∀ stk : MsgState × Nat, (∀ l ∈ stk.1.message_logs, l.status ∈ S) →
      ∀ l ∈ (us.foldl (applyStatusUpdate times) stk).1.message_logs, l.status ∈ S := by
  intro us
  induction us with
  | nil =>
    intro _ stk h
    exact h
  | cons u us ih =>
    intro hus stk hstk
    rw [List.foldl_cons]
    exact ih (fun x hx => hus x (List.mem_cons_of_mem u hx))
      (applyStatusUpdate times stk u)
      (applyStatusUpdate_statuses times S stk u (hus u (List.mem_cons_self u us)) hstk)

/-- Decidable form of "every status value carried by the payload lies in S". -/
def goodPayloadB (S : List String) (p : WebhookPayload) : Bool :=
  (flattenStatuses p).all (fun u =>
    match u.status with
    | some s => decide (s ∈ S)
    | none => true)

/-- Status invariant: starting from the seed, if every webhook payload
admitted by P carries only status values in S (with sent and failed in S for
the send handlers), every reachable log status lies in S. -/
theorem msg_status_invariant (S : List String) (hs : "sent" ∈ S) (hf : "failed" ∈ S)
    (P : WebhookPayload → Prop) (hP : ∀ p, P p → goodPayloadB S p = true) :
    ∀ st, MsgReachable P st → ∀ l ∈ st.message_logs, l.status ∈ S := by
  intro st h
  induction h with
  | seed now =>
    intro l hl
    simp [seedMsgState] at hl
  | step st2 op hp hr ih =>
    cases op with
    | single actor body gwr now2 =>
      intro l hl
      unfold applyMsgOp at hl
      dsimp only at hl
      cases hc : send_single_message st2 actor body gwr now2 with
      | error e =>
        rw [hc] at hl
        exact ih l (by simpa using hl)
      | ok out =>
        rw [hc] at hl
        obtain ⟨lg, hout, hstatus⟩ := send_single_ok_logs st2 actor body gwr now2 out hc
        dsimp only at hl
        rw [hout] at hl
        simp only [List.mem_append, List.mem_singleton] at hl
        rcases hl with hl | hl
        · exact ih l hl
        · rw [hl]
          rcases hstatus with h1 | h1
          · rw [h1]
            exact hs
          · rw [h1]
            exact hf
    | bulk actor cname tid recs gw now2 sendTime doneTime =>
      intro l hl
      unfold applyMsgOp at hl
      dsimp only at hl
      cases hc : send_bulk_message st2 actor cname tid recs gw now2 sendTime doneTime with
      | error e =>
        rw [hc] at hl
        exact ih l (by simpa using hl)
      | ok out =>
        rw [hc] at hl
        obtain ⟨ls, hout, hstatus⟩ := send_bulk_ok_logs st2 actor cname tid recs gw
          now2 sendTime doneTime out hc
        dsimp only at hl
        rw [hout] at hl
        simp only [List.mem_append] at hl
        rcases hl with hl | hl
        · exact ih l hl
        · rcases hstatus l hl with h1 | h1
          · rw [h1]
            exact hs
          · rw [h1]
            exact hf
    | webhook p times2 =>
      intro l hl
      unfold applyMsgOp receive_webhook at hl
      dsimp only at hl
      refine webhook_fold_statuses times2 S (flattenStatuses p) ?_ (st2, 0) ih l hl
      intro u hu s hstat
      have hgoodB := hP p (hp p rfl)
      rw [goodPayloadB, List.all_eq_true] at hgoodB
      have hq := hgoodB u hu
      rw [hstat] at hq
      exact of_decide_eq_true hq

/-- C6 (amended): the send handlers only ever record the statuses sent and
failed (so states reachable without webhooks satisfy that), and the webhook
handler copies the payload's status string verbatim, so the
four-value invariant {sent, failed, delivered, read} holds exactly when the
webhook payloads are restricted to those values — with arbitrary payloads any
string becomes a reachable status, see the counterexample. -/
theorem C6_statuses (S : List String) (hs : "sent" ∈ S) (hf : "failed" ∈ S)
    (st st2 : MsgState)
    (h : MsgReachable (fun p => goodPayloadB S p = true) st)
    (h2 : MsgReachable (fun _ => False) st2) :
    (∀ l ∈ st.message_logs, l.status ∈ S) ∧
    (∀ l ∈ st2.message_logs, l.status = "sent" ∨ l.status = "failed") := by
  constructor
  · exact msg_status_invariant S hs hf _ (fun p hp => hp) st h
  · intro l hl
    have hmem := msg_status_invariant ["sent", "failed"] (by simp) (by simp)
      (fun _ => False) (fun p hp => hp.elim) st2 h2 l hl
    simpa using hmem

/-- The C6 counterexample trace: a successful single send of template 1,
then a webhook assigning the arbitrary status string "hacked" to its
provider message id. -/
def c6ops : List MsgOp :=
  [ .single ⟨1, "admin", "admin"⟩ ⟨"9876543210", "A", "template", some 1, [], ""⟩
      ⟨true, some "wamid.M1", none⟩ "t1",
    .webhook ⟨[⟨[⟨⟨[⟨some "wamid.M1", some "hacked", none⟩]⟩⟩]⟩]⟩ (fun _ => "t2") ]

/-- C6 counterexample: with arbitrary webhook payloads a reachable log status
lies outside {sent, failed, delivered, read}, because receive_webhook assigns
the payload's status string verbatim with no whitelist. -/
theorem C6_counterexample :
    ∃ st, MsgReachable (fun _ => True) st ∧
      ∃ l ∈ st.message_logs,
        l.status ∉ (["sent", "failed", "delivered", "read"] : List String) :=
  ⟨runMsgOps (seedMsgState "t0") c6ops,
   msgReachable_runOps (fun _ => True) "t0" c6ops (fun _ _ _ _ => trivial),
   by decide⟩

/-- The C6 witness trace with a well-behaved webhook (status delivered). -/
def c6wops : List MsgOp :=
  [ .single ⟨1, "admin", "admin"⟩ ⟨"9876543210", "A", "template", some 1, [], ""⟩
      ⟨true, some "wamid.W1", none⟩ "t1",
    .webhook ⟨[⟨[⟨⟨[⟨some "wamid.W1", some "delivered", none⟩]⟩⟩]⟩]⟩ (fun _ => "t2") ]

/-- The C6 witness trace without webhooks: a failed text send. -/
def c6w2ops : List MsgOp :=
  [ .single ⟨1, "admin", "admin"⟩ ⟨"12345678", "B", "text", none, [], "hello"⟩
      ⟨false, none, some "boom"⟩ "t1" ]

/-- C6 witness: on the concrete traces, the four-value invariant holds under
the restricted webhook and the sent/failed invariant holds without webhooks. -/
theorem C6_witness :
    (∀ l ∈ (runMsgOps (seedMsgState "t0") c6wops).message_logs,
      l.status ∈ (["sent", "failed", "delivered", "read"] : List String)) ∧
    (∀ l ∈ (runMsgOps (seedMsgState "t0") c6w2ops).message_logs,
      l.status = "sent" ∨ l.status = "failed") :=
  C6_statuses ["sent", "failed", "delivered", "read"] (by decide) (by decide)
    (runMsgOps (seedMsgState "t0") c6wops) (runMsgOps (seedMsgState "t0") c6w2ops)
    (msgReachable_runOps _ "t0" c6wops (by
      intro op hop p hp
      rcases List.mem_cons.1 hop with hop1 | hop2
      · rw [hop1] at hp
        cases hp
      · rcases List.mem_cons.1 hop2 with hop21 | hop3
        · rw [hop21] at hp
          cases hp
          decide
        · cases hop3))
    (msgReachable_runOps _ "t0" c6w2ops (by
      intro op hop p hp
      rcases List.mem_cons.1 hop with hop1 | hop2
      · rw [hop1] at hp
        cases hp
      · cases hop2))

end Geb
